import Mathlib

/-!
Verification of the authenticated API client (`Orchestrator`) of
`sensor-management-cli` (orchestrator.py, orchestrator_config.py).

The Python code is shallowly embedded:

* `OrchestratorConfig` mirrors the dataclass of the same name.
* The class-level attribute `token: list[dict] = []` (orchestrator.py line 20)
  is a *class* attribute, shared by every `Orchestrator` instance of the
  process; it is modelled by `ProcState`, threaded explicitly through the
  methods.  Each stored dict (`{"login_api": .., "token": ..}` or
  `{"login_api": .., "cookies": ..}`) is modelled by `Cred`, whose optional
  fields reproduce `dict.get` returning `None` for an absent key.
* Python exceptions (the `IndexError` of `split('/')[1]` on a string without
  a separator, and transport-level errors raised by `requests`) are modelled
  with `Except PyErr`.
* The network is an oracle `HttpOracle : HttpRequest → Except TransportErr
  Response`; every request actually issued is also returned in a trace list,
  so that "performs no HTTP call" is statable.
-/

deriving instance DecidableEq for Except

/-- Transport-level failures raised by the `requests` library
(connection refused, DNS failure, ...). -/
inductive TransportErr where
  | connectionRefused
  | other (msg : String)
deriving Repr, DecidableEq

/-- Python exceptions that the embedded code can raise: `IndexError` from
`split('/')[1]`, or a propagated transport error. -/
inductive PyErr where
  | indexError
  | transport (e : TransportErr)
deriving Repr, DecidableEq

/-- A cookie jar, as an association list of cookie names to values. -/
abbrev Cookies := List (String × String)

/-- A Python `dict[str, str|None]` as an insertion-ordered association list.
Header values may be `None` in Python (e.g. `headers["Authorization"] = None`
when no token is found), hence `Option String` values. -/
abbrev PyDict := List (String × Option String)

/-- Assignment `d[k] = v` on a Python dict: replace the value in place if the key is
present, otherwise append the new binding. -/
def dictSet (d : PyDict) (k : String) (v : Option String) : PyDict :=
  match d with
  | [] => [(k, v)]
  | (k', v') :: rest => if k' = k then (k, v) :: rest else (k', v') :: dictSet rest k v

/-- Lookup in the style of `d.get(k)`: `some v` when the key is bound to `v`,
`none` when the key is absent. -/
def dictGet (d : PyDict) (k : String) : Option (Option String) :=
  match d with
  | [] => none
  | (k', v) :: rest => if k' = k then some v else dictGet rest k

/-- Python `d.update(ex)`: assign every binding of `ex` into `d`,
in order, later assignments overwriting earlier ones. -/
def dictUpdate (d : PyDict) (ex : PyDict) : PyDict :=
  match ex with
  | [] => d
  | (k, v) :: rest => dictUpdate (dictSet d k v) rest

/-- Python's `str.split(sep)` for a single-character separator, on the
character list: `"".split('/') = ['']`, `"/a/".split('/') = ['', 'a', '']`. -/
def pySplit (sep : Char) : List Char → List (List Char)
  | [] => [[]]
  | c :: rest =>
    let r := pySplit sep rest
    if c = sep then [] :: r
    else
      match r with
      | h :: t => (c :: h) :: t
      | [] => [[c]]

/-- Python's `s.split(sep)` on strings. -/
def pySplitStr (s : String) (sep : Char) : List String :=
  (pySplit sep s.toList).map (fun l => ⟨l⟩)

/-- Python list indexing `l[i]`: raises `IndexError` when out of range. -/
def pyIndex {α : Type} (l : List α) (i : Nat) : Except PyErr α :=
  match l.get? i with
  | some x => .ok x
  | none => .error .indexError

/-- The computation `s.split('/')[1]` — the "first path segment" computation of
`_get_auth_token` / `_get_auth_cookies`. -/
def firstSeg (s : String) : Except PyErr String :=
  pyIndex (pySplitStr s '/') 1

/-- A response from `requests`: status code, the optional `Authorization`
response header (absent ⇒ `r.headers["Authorization"]` raises `KeyError`),
and the response cookie jar. -/
structure Response where
  status : Nat
  authHeader : Option String
  cookies : Cookies
deriving Repr, DecidableEq

/-- Predicate `r.ok` of the `requests` library: true iff the status code is below 400. -/
def Response.ok (r : Response) : Bool := decide (r.status < 400)

/-- An HTTP request as issued through `requests`: method, full URL, headers,
optional cookie jar, optional query parameters, optional JSON body, and
optional form-encoded data (used by the login POST). -/
structure HttpRequest where
  method : String
  url : String
  headers : PyDict := []
  cookies : Option Cookies := none
  params : Option PyDict := none
  body : Option String := none
  data : Option PyDict := none
deriving Repr, DecidableEq

/-- The network, as an oracle from requests to transport outcome. -/
abbrev HttpOracle := HttpRequest → Except TransportErr Response

/-- The `login_api` / `logout_api` fields of `OrchestratorConfig` are
annotated `Optional[str] | Optional[list]`: `None`, a string, or a list of
strings. -/
inductive PyStrOrList where
  | pynone
  | pystr (s : String)
  | pylist (l : List String)
deriving Repr, DecidableEq

/-- Python truthiness of such a value: `None`, `""` and `[]` are falsy. -/
def PyStrOrList.truthy : PyStrOrList → Bool
  | .pynone => false
  | .pystr s => s ≠ ""
  | .pylist l => l ≠ []

/-- The `OrchestratorConfig` dataclass (orchestrator_config.py). -/
structure OrchestratorConfig where
  name : String
  url : String
  port : String
  replicated : Bool
  username : Option String := none
  password : Option String := none
  login_api : PyStrOrList := .pynone
  logout_api : PyStrOrList := .pynone
  tenant_id : Option String := none
  user_roles : Option String := none
deriving Repr, DecidableEq

/-- One stored credential dict.  `_login` appends either
`{"login_api": .., "token": ..}` or `{"login_api": .., "cookies": ..}`;
`t.get("token")` / `t.get("cookies")` return `None` for the absent key,
modelled by the optional fields. -/
structure Cred where
  login_api : String
  token : Option String := none
  cookies : Option Cookies := none
deriving Repr, DecidableEq

/-- Method `_is_auth_token` (orchestrator.py lines 113-114): whether any credential
is stored. -/
def is_auth_token (tok : List Cred) : Bool := decide (tok.length > 0)

/-- The `for t in self.token` loop body shared by `_get_auth_token`
(lines 97-99) and `_get_auth_cookies` (lines 106-108): return the first
stored credential whose `login_api` has the same first path segment as
`uri`; left-to-right evaluation of
`t.get("login_api").split('/')[1] == uri.split('/')[1]`, so a string without
`'/'` raises `IndexError`. -/
def findCred : List Cred → String → Except PyErr (Option Cred)
  | [], _ => .ok none
  | c :: rest, uri =>
    match firstSeg c.login_api with
    | .error e => .error e
    | .ok seg =>
      match firstSeg uri with
      | .error e => .error e
      | .ok useg => if seg = useg then .ok (some c) else findCred rest uri

/-- Method `_get_auth_token` (orchestrator.py lines 95-102): with more than one
credential, first try the first-path-segment match; then (with at least one
credential) fall back to `self.token[0].get("token")`; else `None`. -/
def get_auth_token (tok : List Cred) (uri : String) : Except PyErr (Option String) :=
  match (if tok.length > 1 then findCred tok uri else .ok none) with
  | .error e => .error e
  | .ok (some c) => .ok c.token
  | .ok none =>
    match tok with
    | c :: _ => .ok c.token
    | [] => .ok none

/-- Method `_get_auth_cookies` (orchestrator.py lines 104-111).  Note that, unlike
`_get_auth_token`, the fallback branch at line 109 is guarded by
`len(self.token) > 1` (not `> 0`), so with exactly one stored credential
this returns `None`. -/
def get_auth_cookies (tok : List Cred) (uri : String) : Except PyErr (Option Cookies) :=
  match (if tok.length > 1 then findCred tok uri else .ok none) with
  | .error e => .error e
  | .ok (some c) => .ok c.cookies
  | .ok none =>
    if tok.length > 1 then
      match tok with
      | c :: _ => .ok c.cookies
      | [] => .ok none
    else .ok none

/-- The POST issued by `_login` (line 35): form-encoded username/password to
`self.config.url + login_api`. -/
def loginRequest (cfg : OrchestratorConfig) (login_api : String)
    (username password : Option String) : HttpRequest :=
  { method := "POST", url := cfg.url ++ login_api,
    data := some [("username", username), ("password", password)] }

/-- Method `_login` (orchestrator.py lines 32-41): POST the credentials; if the
response has an `Authorization` header store a token credential, otherwise
(the `KeyError` branch) store a cookie credential with the response's cookie
jar; return `r.ok`.  The request issued is returned as a trace. -/
def login1 (cfg : OrchestratorConfig) (tok : List Cred) (http : HttpOracle)
    (login_api : String) (username password : Option String) :
    Except PyErr (List Cred × List HttpRequest × Bool) :=
  match http (loginRequest cfg login_api username password) with
  | .error e => .error (.transport e)
  | .ok r =>
    match r.authHeader with
    | some t =>
      .ok (tok ++ [{ login_api := login_api, token := some t }],
           [loginRequest cfg login_api username password], r.ok)
    | none =>
      .ok (tok ++ [{ login_api := login_api, cookies := some r.cookies }],
           [loginRequest cfg login_api username password], r.ok)

/-- The `for login_api in self.config.login_api` loop of `login`
(lines 66-68), threading the credential list and accumulating the trace. -/
def loginList (cfg : OrchestratorConfig) (http : HttpOracle) :
    List Cred → List String → Except PyErr (List Cred × List HttpRequest)
  | tok, [] => .ok (tok, [])
  | tok, a :: rest =>
    match login1 cfg tok http a cfg.username cfg.password with
    | .error e => .error e
    | .ok (tok', reqs, _) =>
      match loginList cfg http tok' rest with
      | .error e => .error e
      | .ok (tok'', reqs') => .ok (tok'', reqs ++ reqs')

/-- Method `login` (orchestrator.py lines 55-72).  Returns the updated credential
list, the trace of HTTP requests issued, and the Python return value
(`None` on the early exits, `len(self.token) > 0` otherwise).  The
`.pynone` branch of the match is unreachable because `None` is falsy. -/
def login (cfg : OrchestratorConfig) (tok : List Cred) (http : HttpOracle) :
    Except PyErr (List Cred × List HttpRequest × Option Bool) :=
  if cfg.replicated then .ok (tok, [], none)
  else if is_auth_token tok then .ok (tok, [], none)
  else if !cfg.login_api.truthy then .ok (tok, [], none)
  else
    match cfg.login_api with
    | .pylist l =>
      match loginList cfg http tok l with
      | .error e => .error e
      | .ok (tok', reqs) => .ok (tok', reqs, some (decide (tok'.length > 0)))
    | .pystr s =>
      match login1 cfg tok http s cfg.username cfg.password with
      | .error e => .error e
      | .ok (tok', reqs, _) => .ok (tok', reqs, some (decide (tok'.length > 0)))
    | .pynone => .ok (tok, [], none)

/-- The POST issued by `_logout` (lines 43-53): `Authorization` and
`Content-type` headers, no body. -/
def logoutRequest (cfg : OrchestratorConfig) (logout_api : String)
    (token : Option String) : HttpRequest :=
  { method := "POST", url := cfg.url ++ logout_api,
    headers := [("Authorization", token),
                ("Content-type", some "application/vnd.api+json")] }

/-- Method `_logout` (orchestrator.py lines 43-53): POST to the logout endpoint,
return `r.ok` and the issued request. -/
def logout1 (cfg : OrchestratorConfig) (http : HttpOracle)
    (logout_api : String) (token : Option String) :
    Except PyErr (List HttpRequest × Bool) :=
  match http (logoutRequest cfg logout_api token) with
  | .error e => .error (.transport e)
  | .ok r => .ok ([logoutRequest cfg logout_api token], r.ok)

/-- The `for logout_api in self.config.logout_api` loop of `logout`
(lines 79-81): each iteration selects a token with `_get_auth_token` and
posts the logout. -/
def logoutList (cfg : OrchestratorConfig) (tok : List Cred) (http : HttpOracle) :
    List String → Except PyErr (List HttpRequest)
  | [] => .ok []
  | a :: rest =>
    match get_auth_token tok a with
    | .error e => .error e
    | .ok t =>
      match logout1 cfg http a t with
      | .error e => .error e
      | .ok (reqs, _) =>
        match logoutList cfg tok http rest with
        | .error e => .error e
        | .ok reqs' => .ok (reqs ++ reqs')

/-- Method `logout` (orchestrator.py lines 74-84).  Returns the (unchanged)
credential list and the trace of HTTP requests issued.  The `.pynone`
branch is unreachable because `None` is falsy. -/
def logout (cfg : OrchestratorConfig) (tok : List Cred) (http : HttpOracle) :
    Except PyErr (List Cred × List HttpRequest) :=
  if cfg.replicated then .ok (tok, [])
  else if cfg.logout_api.truthy && is_auth_token tok then
    match cfg.logout_api with
    | .pylist l =>
      match logoutList cfg tok http l with
      | .error e => .error e
      | .ok reqs => .ok (tok, reqs)
    | .pystr s =>
      match get_auth_token tok s with
      | .error e => .error e
      | .ok t =>
        match logout1 cfg http s t with
        | .error e => .error e
        | .ok (reqs, _) => .ok (tok, reqs)
    | .pynone => .ok (tok, [])
  else .ok (tok, [])

/-- Method `build_http_headers` (orchestrator.py lines 116-127): start from
`{'Accept': 'application/json'}`; if replicated add the two forwarding
headers; if a credential is stored set `Authorization` to the selected
token (possibly `None`); finally `headers.update(extra_headers)` when
`extra_headers` is truthy (a non-`None`, non-empty dict). -/
def build_http_headers (cfg : OrchestratorConfig) (tok : List Cred)
    (uri : String) (extra_headers : Option PyDict) : Except PyErr PyDict :=
  let h0 : PyDict := [("Accept", some "application/json")]
  let h1 := if cfg.replicated then
      dictSet (dictSet h0 "X-Forwarded-Tenant-Id" cfg.tenant_id)
        "X-Forwarded-User-Roles" cfg.user_roles
    else h0
  match (if is_auth_token tok then
          (get_auth_token tok uri).map (fun t => dictSet h1 "Authorization" t)
         else .ok h1) with
  | .error e => .error e
  | .ok h2 =>
    .ok (match extra_headers with
         | some ex => if ex = [] then h2 else dictUpdate h2 ex
         | none => h2)

/-- The request dispatched by `send_request` (lines 132-138). -/
def sendReq (cfg : OrchestratorConfig) (hs : PyDict) (cks : Option Cookies)
    (method uri : String) (params : Option PyDict) (body : Option String) :
    HttpRequest :=
  { method := method, url := cfg.url ++ uri, headers := hs, cookies := cks,
    params := params, body := body }

/-- Method `send_request` (orchestrator.py lines 132-138): build the headers
(left-to-right argument evaluation: headers before cookies), select the
cookie jar, dispatch, and return the raw response; a transport error
propagates. -/
def send_request (cfg : OrchestratorConfig) (tok : List Cred)
    (http : HttpOracle) (method uri : String) (headers : Option PyDict)
    (params : Option PyDict) (body : Option String) :
    Except PyErr Response :=
  match build_http_headers cfg tok uri headers with
  | .error e => .error e
  | .ok hs =>
    match get_auth_cookies tok uri with
    | .error e => .error e
    | .ok cks =>
      match http (sendReq cfg hs cks method uri params body) with
      | .error e => .error (.transport e)
      | .ok r => .ok r

/-- The process-wide state holding the single class-level list
`Orchestrator.token` (orchestrator.py line 20): it is a class attribute,
initialised once when the class body runs, and only ever mutated in place
(`self.token.append(...)`), never rebound on an instance. -/
structure ProcState where
  class_token : List Cred
deriving Repr, DecidableEq

/-- An `Orchestrator` instance: per-instance state is only `self.config`. -/
structure Orchestrator where
  config : OrchestratorConfig
deriving Repr, DecidableEq

/-- Constructor `Orchestrator.__init__` (lines 22-24): store the config and append
`":" + str(port)` to its url. -/
def Orchestrator.ofConfig (config : OrchestratorConfig) : Orchestrator :=
  ⟨{ config with url := config.url ++ ":" ++ config.port }⟩

/-- The credential list observed through an instance: `self.token` finds no
instance attribute and falls back to the class attribute, so every instance
observes the same list. -/
def credList (_o : Orchestrator) (p : ProcState) : List Cred :=
  p.class_token

/-- Instance-level `o.login()`, threading the shared class-level
list. -/
def loginInstance (o : Orchestrator) (p : ProcState) (http : HttpOracle) :
    Except PyErr (ProcState × List HttpRequest × Option Bool) :=
  match login o.config p.class_token http with
  | .error e => .error e
  | .ok (tok', reqs, r) => .ok (⟨tok'⟩, reqs, r)

/-! ## Concrete fixtures used by witnesses and counterexamples -/

/-- A standalone (non-replicated) backend config with a single login path. -/
def cfgA : OrchestratorConfig :=
  { name := "Agent-Orchestrator", url := "https://a.example", port := "50051",
    replicated := false, username := some "u", password := some "p",
    login_api := .pystr "/a/login", logout_api := .pystr "/a/logout" }

/-- A second, distinct standalone backend config. -/
def cfgB : OrchestratorConfig :=
  { name := "Analytics", url := "https://b.example", port := "443",
    replicated := false, username := some "u", password := some "p",
    login_api := .pystr "/b/login", logout_api := .pynone }

/-- A standalone backend config carrying a list of two login paths. -/
def cfgML : OrchestratorConfig :=
  { name := "Sensor-Orchestrator", url := "https://s.example", port := "443",
    replicated := false, username := some "u", password := some "p",
    login_api := .pylist ["/a/login", "/b/login"], logout_api := .pynone }

/-- A gateway-fronted (replicated) backend config. -/
def cfgRep : OrchestratorConfig :=
  { name := "YANG-Gateway", url := "https://g.example", port := "443",
    replicated := true, tenant_id := some "tenant-1", user_roles := some "admin" }

/-- A login response carrying an `Authorization` header. -/
def respTok : Response := { status := 200, authHeader := some "Bearer xyz", cookies := [] }

/-- A login response with no `Authorization` header but a session cookie. -/
def respCookie : Response :=
  { status := 200, authHeader := none, cookies := [("JSESSIONID", "abc")] }

/-- A non-2xx response that still carries an `Authorization` header. -/
def resp500 : Response := { status := 500, authHeader := some "Bearer bad", cookies := [] }

/-- A network oracle answering every request with the same response. -/
def httpConst (r : Response) : HttpOracle := fun _ => .ok r

/-- A token-type credential obtained from `/a/login`. -/
def credTokA : Cred := { login_api := "/a/login", token := some "tA" }

/-- A token-type credential obtained from `/b/login`. -/
def credTokB : Cred := { login_api := "/b/login", token := some "tB" }

/-- A cookie-type credential obtained from `/a/login`. -/
def credCookieA : Cred := { login_api := "/a/login", cookies := some [("JSESSIONID", "abc")] }

/-- The credential `_login` stores for login path `p` given response `r`:
token-type from the `Authorization` header when present, cookie-type from
the response cookie jar otherwise. -/
def credOfResponse (p : String) (r : Response) : Cred :=
  match r.authHeader with
  | some t => { login_api := p, token := some t }
  | none => { login_api := p, cookies := some r.cookies }

/-! ## Dictionary lemmas -/

/-- Setting a key makes it present with the assigned value. -/
theorem dictGet_dictSet_self (d : PyDict) (k : String) (v : Option String) :
    dictGet (dictSet d k v) k = some v := by
  induction d with
  | nil => simp [dictSet, dictGet]
  | cons e rest ih =>
    obtain ⟨k', v'⟩ := e
    by_cases h : k' = k <;> simp [dictSet, dictGet, h, ih]

/-- Setting one key leaves lookups of other keys unchanged. -/
theorem dictGet_dictSet_ne (d : PyDict) (k k' : String) (v : Option String)
    (h : k' ≠ k) : dictGet (dictSet d k' v) k = dictGet d k := by
  induction d with
  | nil => simp [dictSet, dictGet, h]
  | cons e rest ih =>
    obtain ⟨k'', v''⟩ := e
    by_cases h2 : k'' = k' <;> by_cases h3 : k'' = k <;>
      simp_all [dictSet, dictGet]

/-- Updating with a dict not containing `k` leaves the lookup of `k`
unchanged. -/
theorem dictGet_dictUpdate_not_mem (d ex : PyDict) (k : String)
    (h : k ∉ ex.map Prod.fst) : dictGet (dictUpdate d ex) k = dictGet d k := by
  induction ex generalizing d with
  | nil => simp [dictUpdate]
  | cons e rest ih =>
    obtain ⟨k', v'⟩ := e
    simp only [List.map_cons, List.mem_cons] at h
    push_neg at h
    rw [dictUpdate, ih _ h.2, dictGet_dictSet_ne _ _ _ _ (fun he => h.1 he.symm)]

/-- Updating with a duplicate-free dict binding `k` to `v` makes the lookup
of `k` return `v`. -/
theorem dictGet_dictUpdate_mem (d ex : PyDict) (k : String) (v : Option String)
    (hnd : (ex.map Prod.fst).Nodup) (h : dictGet ex k = some v) :
    dictGet (dictUpdate d ex) k = some v := by
  induction ex generalizing d with
  | nil => simp [dictGet] at h
  | cons e rest ih =>
    obtain ⟨k', v'⟩ := e
    simp only [List.map_cons, List.nodup_cons] at hnd
    rw [dictGet] at h
    by_cases hk : k' = k
    · subst hk
      have hv : v' = v := by simpa using h
      subst hv
      rw [dictUpdate, dictGet_dictUpdate_not_mem _ _ _ hnd.1,
        dictGet_dictSet_self]
    · rw [if_neg hk] at h
      rw [dictUpdate]
      exact ih _ hnd.2 h

/-! ## Totality lemmas for the first-path-segment lookup -/

/-- Indexing within bounds succeeds. -/
theorem pyIndex_ok {α : Type} (l : List α) (i : Nat) (h : i < l.length) :
    ∃ x, pyIndex l i = .ok x := by
  refine ⟨l.get ⟨i, h⟩, ?_⟩
  unfold pyIndex
  rw [List.get?_eq_get h]

/-- A string whose split on `'/'` has a second part has a first path
segment. -/
theorem firstSeg_ok (s : String) (h : 2 ≤ (pySplitStr s '/').length) :
    ∃ x, firstSeg s = .ok x :=
  pyIndex_ok _ 1 h

/-- The matching loop succeeds whenever the uri and every stored login path
split into at least two parts. -/
theorem findCred_ok (tok : List Cred) (uri : String)
    (huri : 2 ≤ (pySplitStr uri '/').length)
    (hpaths : ∀ c ∈ tok, 2 ≤ (pySplitStr c.login_api '/').length) :
    ∃ r, findCred tok uri = .ok r := by
  induction tok with
  | nil => exact ⟨none, rfl⟩
  | cons c rest ih =>
    obtain ⟨seg, hseg⟩ := firstSeg_ok c.login_api (hpaths c (by simp))
    obtain ⟨useg, huseg⟩ := firstSeg_ok uri huri
    obtain ⟨r, hr⟩ := ih (fun c hc => hpaths c (by simp [hc]))
    by_cases he : seg = useg
    · exact ⟨some c, by simp [findCred, hseg, huseg, he]⟩
    · exact ⟨r, by simp [findCred, hseg, huseg, he, hr]⟩

/-! ## Claims -/

/-- C6: for every gateway-fronted (replicated) client, `login()` and
`logout()` are no-ops: neither performs any HTTP call (empty trace) and
neither changes the credential list. -/
theorem C6_replicated_noop (cfg : OrchestratorConfig) (tok : List Cred)
    (http : HttpOracle) (hrep : cfg.replicated = true) :
    login cfg tok http = .ok (tok, [], none)
    ∧ logout cfg tok http = .ok (tok, []) := by
  constructor <;> simp [login, logout, hrep]

/-- Witness for C6 at a concrete replicated config, state and oracle. -/
theorem C6_witness :
    login cfgRep [credTokA] (httpConst respTok) = .ok ([credTokA], [], none)
    ∧ logout cfgRep [credTokA] (httpConst respTok) = .ok ([credTokA], []) :=
  C6_replicated_noop cfgRep [credTokA] (httpConst respTok) rfl

/-- C10: `logout()` never modifies the credential list: whenever it returns,
the returned list is the input list. -/
theorem C10_logout_preserves_creds (cfg : OrchestratorConfig) (tok : List Cred)
    (http : HttpOracle) (res : List Cred × List HttpRequest)
    (h : logout cfg tok http = .ok res) : res.1 = tok := by
  unfold logout at h
  split at h
  · cases h; rfl
  · split at h
    · split at h
      · split at h
        · cases h
        · cases h; rfl
      · split at h
        · cases h
        · split at h
          · cases h
          · cases h; rfl
      · cases h; rfl
    · cases h; rfl

/-- Witness for C10: a standalone client with two credentials posting a
logout. -/
theorem C10_witness :
    (([credTokA, credTokB],
      [logoutRequest cfgA "/a/logout" (some "tA")]) :
        List Cred × List HttpRequest).1 = [credTokA, credTokB] :=
  C10_logout_preserves_creds cfgA [credTokA, credTokB] (httpConst respTok)
    ([credTokA, credTokB], [logoutRequest cfgA "/a/logout" (some "tA")])
    (by decide)

/-- With no extra headers, the built header dict binds `Authorization` to
whatever token the selection returned. -/
theorem build_auth_header (cfg : OrchestratorConfig) (tok : List Cred)
    (uri : String) (t : Option String)
    (htok : is_auth_token tok = true)
    (hget : get_auth_token tok uri = .ok t) :
    (build_http_headers cfg tok uri none).map (fun h => dictGet h "Authorization")
      = .ok (some t) := by
  unfold build_http_headers
  simp [htok, hget, Except.map, dictGet_dictSet_self]

/-- C7: first-path-segment selection: with credentials from `/a/login` and
`/b/login`, a request to `/a/resource` selects the `/a/login` token (also as
the `Authorization` header built for the request), and a request to
`/c/unknown` (no matching login path) falls back to the first stored
credential. -/
theorem C7_first_segment_selection (cfg : OrchestratorConfig) (tA tB : String) :
    get_auth_token [{ login_api := "/a/login", token := some tA },
                    { login_api := "/b/login", token := some tB }] "/a/resource"
      = .ok (some tA)
    ∧ get_auth_token [{ login_api := "/a/login", token := some tA },
                      { login_api := "/b/login", token := some tB }] "/c/unknown"
      = .ok (some tA)
    ∧ (build_http_headers cfg
        [{ login_api := "/a/login", token := some tA },
         { login_api := "/b/login", token := some tB }] "/a/resource" none).map
        (fun h => dictGet h "Authorization") = .ok (some (some tA))
    ∧ (build_http_headers cfg
        [{ login_api := "/a/login", token := some tA },
         { login_api := "/b/login", token := some tB }] "/c/unknown" none).map
        (fun h => dictGet h "Authorization") = .ok (some (some tA)) := by
  refine ⟨rfl, rfl, ?_, ?_⟩
  · exact build_auth_header cfg _ _ _ rfl rfl
  · exact build_auth_header cfg _ _ _ rfl rfl

/-- C8: `send_request` never interprets status codes: once the headers and
cookie selection succeed, a transport-level response of any status is
returned unchanged, and a transport failure propagates as an error. -/
theorem C8_status_transparent (cfg : OrchestratorConfig) (tok : List Cred)
    (http : HttpOracle) (method uri : String) (extra params : Option PyDict)
    (body : Option String) (hs : PyDict) (cks : Option Cookies)
    (hh : build_http_headers cfg tok uri extra = .ok hs)
    (hc : get_auth_cookies tok uri = .ok cks) :
    (∀ r : Response,
        http (sendReq cfg hs cks method uri params body) = .ok r →
        send_request cfg tok http method uri extra params body = .ok r)
    ∧ (∀ e : TransportErr,
        http (sendReq cfg hs cks method uri params body) = .error e →
        send_request cfg tok http method uri extra params body
          = .error (.transport e)) := by
  constructor
  · intro r hr
    simp [send_request, hh, hc, hr]
  · intro e he
    simp [send_request, hh, hc, he]

/-- Witness for C8: a 500 response is returned unchanged. -/
theorem C8_witness :
    send_request cfgA [credTokA] (httpConst resp500) "GET" "/a/resource"
      none none none = .ok resp500 :=
  (C8_status_transparent cfgA [credTokA] (httpConst resp500) "GET" "/a/resource"
      none none none
      [("Accept", some "application/json"), ("Authorization", some "tA")] none
      (by decide) (by decide)).1 resp500 rfl

/-- C3 as stated is false: with two stored credentials, a request URI
containing no `'/'` makes the lookup raise `IndexError` instead of
returning a value (and so do `_get_auth_cookies` and
`build_http_headers`). -/
theorem C3_counterexample :
    get_auth_token [credTokA, credTokB] "nosegment" = .error .indexError
    ∧ get_auth_cookies [credTokA, credTokB] "nosegment" = .error .indexError
    ∧ build_http_headers cfgA [credTokA, credTokB] "nosegment" none
        = .error .indexError := by
  decide

/-- C3 amended: the lookup is total provided the request URI and every
stored login path split on `'/'` into at least two parts (i.e. contain at
least one `'/'`); under these conditions both `_get_auth_token` and
`_get_auth_cookies` return a value for any number of stored credentials. -/
theorem C3_amended_total (tok : List Cred) (uri : String)
    (huri : 2 ≤ (pySplitStr uri '/').length)
    (hpaths : ∀ c ∈ tok, 2 ≤ (pySplitStr c.login_api '/').length) :
    (∃ v, get_auth_token tok uri = .ok v)
    ∧ (∃ w, get_auth_cookies tok uri = .ok w) := by
  by_cases hlen : tok.length > 1
  · obtain ⟨r, hr⟩ := findCred_ok tok uri huri hpaths
    cases r with
    | some c =>
      exact ⟨⟨c.token, by simp [get_auth_token, hlen, hr]⟩,
             ⟨c.cookies, by simp [get_auth_cookies, hlen, hr]⟩⟩
    | none =>
      rcases tok with _ | ⟨c, rest⟩
      · simp at hlen
      · refine ⟨⟨c.token, by simp [get_auth_token, hlen, hr]⟩,
               ⟨c.cookies, ?_⟩⟩
        simp [get_auth_cookies, hlen, hr]
        intro h
        subst h
        simp at hlen
  · rcases tok with _ | ⟨c, rest⟩
    · exact ⟨⟨none, by simp [get_auth_token, hlen]⟩,
             ⟨none, by simp [get_auth_cookies, hlen]⟩⟩
    · rcases rest with _ | ⟨c', rest'⟩
      · exact ⟨⟨c.token, by simp [get_auth_token, hlen]⟩,
               ⟨none, by simp [get_auth_cookies, hlen]⟩⟩
      · exact absurd (by simp) hlen

/-- Witness for the amended C3 at a concrete two-credential state. -/
theorem C3_witness :
    (∃ v, get_auth_token [credTokA, credTokB] "/a/resource" = .ok v)
    ∧ (∃ w, get_auth_cookies [credTokA, credTokB] "/a/resource" = .ok w) :=
  C3_amended_total [credTokA, credTokB] "/a/resource" (by decide) (by decide)

/-- C2 evaluated at the failing input: with exactly one stored cookie-type
credential, `_get_auth_cookies` returns `None` (line 109 guards the
single-credential fallback with `len(self.token) > 1` where
`_get_auth_token` uses `> 0`), and the `Authorization` header is set to
`None` as well, so the credential is not attached to the request at all;
with exactly one *token*-type credential the token half of the claim does
hold. -/
theorem C2_single_credential_eval :
    get_auth_cookies [credCookieA] "/a/resource" = .ok none
    ∧ get_auth_token [credCookieA] "/a/resource" = .ok none
    ∧ build_http_headers cfgA [credCookieA] "/a/resource" none
        = .ok [("Accept", some "application/json"), ("Authorization", none)]
    ∧ get_auth_token [credTokA] "/a/resource" = .ok (some "tA")
    ∧ get_auth_token [credTokA] "nosegment" = .ok (some "tA") := by
  decide

/-- C1 as stated is false: `token` (orchestrator.py line 20) is a class
attribute, so a `login()` on one `Orchestrator` instance changes the
credential list observed through a different instance. -/
theorem C1_counterexample :
    loginInstance (Orchestrator.ofConfig cfgA) ⟨[]⟩ (httpConst respTok)
      = .ok (⟨[{ login_api := "/a/login", token := some "Bearer xyz" }]⟩,
             [loginRequest (Orchestrator.ofConfig cfgA).config "/a/login"
               (some "u") (some "p")], some true)
    ∧ credList (Orchestrator.ofConfig cfgB)
        ⟨[{ login_api := "/a/login", token := some "Bearer xyz" }]⟩
      ≠ credList (Orchestrator.ofConfig cfgB) ⟨[]⟩ := by
  decide

/-- C1 amended: the credential list is a single class-level list shared by
every `Orchestrator` instance of the process: any two instances always
observe the same list, and in particular the list appended to by a
`login()` on one instance is the list observed through every other
instance. -/
theorem C1_amended_shared (o1 o2 : Orchestrator) (p : ProcState)
    (http : HttpOracle) (p' : ProcState) (reqs : List HttpRequest)
    (r : Option Bool)
    (_h : loginInstance o1 p http = .ok (p', reqs, r)) :
    credList o1 p = credList o2 p ∧ credList o2 p' = credList o1 p' :=
  ⟨rfl, rfl⟩

/-- Witness for the amended C1 at two concrete instances. -/
theorem C1_witness :
    credList (Orchestrator.ofConfig cfgA) ⟨[]⟩
      = credList (Orchestrator.ofConfig cfgB) ⟨[]⟩
    ∧ credList (Orchestrator.ofConfig cfgB)
        ⟨[{ login_api := "/a/login", token := some "Bearer xyz" }]⟩
      = credList (Orchestrator.ofConfig cfgA)
          ⟨[{ login_api := "/a/login", token := some "Bearer xyz" }]⟩ :=
  C1_amended_shared (Orchestrator.ofConfig cfgA) (Orchestrator.ofConfig cfgB)
    ⟨[]⟩ (httpConst respTok)
    ⟨[{ login_api := "/a/login", token := some "Bearer xyz" }]⟩
    [loginRequest (Orchestrator.ofConfig cfgA).config "/a/login"
      (some "u") (some "p")] (some true) (by decide)

/-- C4: `login()` is idempotent for a standalone backend with one login
path: from an empty credential list, the first call stores exactly one
credential (issuing one POST), and a second call is a no-op that issues no
HTTP request. -/
theorem C4_login_idempotent (cfg : OrchestratorConfig) (http : HttpOracle)
    (s : String) (r : Response)
    (hrep : cfg.replicated = false)
    (hapi : cfg.login_api = .pystr s)
    (hs : s ≠ "")
    (hhttp : http (loginRequest cfg s cfg.username cfg.password) = .ok r) :
    ∃ c : Cred,
      login cfg [] http
        = .ok ([c], [loginRequest cfg s cfg.username cfg.password], some true)
      ∧ login cfg [c] http = .ok ([c], [], none) := by
  cases hauth : r.authHeader with
  | some t =>
    refine ⟨{ login_api := s, token := some t }, ?_, ?_⟩
    · simp [login, hrep, is_auth_token, hapi, PyStrOrList.truthy, hs, login1,
        hhttp, hauth]
    · simp [login, hrep, is_auth_token]
  | none =>
    refine ⟨{ login_api := s, cookies := some r.cookies }, ?_, ?_⟩
    · simp [login, hrep, is_auth_token, hapi, PyStrOrList.truthy, hs, login1,
        hhttp, hauth]
    · simp [login, hrep, is_auth_token]

/-- Witness for C4 at a concrete standalone config and token response. -/
theorem C4_witness :
    ∃ c : Cred,
      login cfgA [] (httpConst respTok)
        = .ok ([c], [loginRequest cfgA "/a/login" cfgA.username cfgA.password],
               some true)
      ∧ login cfgA [c] (httpConst respTok) = .ok ([c], [], none) :=
  C4_login_idempotent cfgA (httpConst respTok) "/a/login" respTok rfl rfl
    (by decide) rfl

/-- The login loop appends one credential per path, in order. -/
theorem loginList_ok (cfg : OrchestratorConfig) (http : HttpOracle)
    (resp : String → Response) (paths : List String) (tok : List Cred)
    (hhttp : ∀ p ∈ paths,
      http (loginRequest cfg p cfg.username cfg.password) = .ok (resp p)) :
    loginList cfg http tok paths
      = .ok (tok ++ paths.map (fun p => credOfResponse p (resp p)),
             paths.map (fun p => loginRequest cfg p cfg.username cfg.password)) := by
  induction paths generalizing tok with
  | nil => simp [loginList]
  | cons a rest ih =>
    have ha := hhttp a (by simp)
    have hr := ih (tok ++ [credOfResponse a (resp a)])
      (fun p hp => hhttp p (by simp [hp]))
    cases hauth : (resp a).authHeader with
    | some t =>
      simp [loginList, login1, ha, hauth, credOfResponse] at hr ⊢
      simp [hr]
    | none =>
      simp [loginList, login1, ha, hauth, credOfResponse] at hr ⊢
      simp [hr]

/-- C5: for every readable login response, `login()` appends exactly one
credential per configured login path — a token credential holding the
response's `Authorization` header when present, otherwise a cookie
credential holding the response's cookie jar — regardless of each
response's HTTP status code. -/
theorem C5_login_stores_per_path (cfg : OrchestratorConfig) (http : HttpOracle)
    (paths : List String) (resp : String → Response)
    (hrep : cfg.replicated = false)
    (hapi : cfg.login_api = .pylist paths)
    (hne : paths ≠ [])
    (hhttp : ∀ p ∈ paths,
      http (loginRequest cfg p cfg.username cfg.password) = .ok (resp p)) :
    login cfg [] http
      = .ok (paths.map (fun p => credOfResponse p (resp p)),
             paths.map (fun p => loginRequest cfg p cfg.username cfg.password),
             some true) := by
  have hl := loginList_ok cfg http resp paths [] hhttp
  simp [login, hrep, is_auth_token, hapi, PyStrOrList.truthy, hne, hl,
    List.length_pos, hne]

/-- Witness for C5: two login paths, both answered by a non-2xx response
carrying an `Authorization` header — both credentials are still stored. -/
theorem C5_witness :
    login cfgML [] (httpConst resp500)
      = .ok (["/a/login", "/b/login"].map (fun p => credOfResponse p resp500),
             ["/a/login", "/b/login"].map
               (fun p => loginRequest cfgML p cfgML.username cfgML.password),
             some true) :=
  C5_login_stores_per_path cfgML (httpConst resp500) ["/a/login", "/b/login"]
    (fun _ => resp500) rfl rfl (by decide) (fun p _ => rfl)

/-- C9: caller-supplied extra headers are merged last and take precedence:
whenever `build_http_headers` succeeds, every key bound in the extra
headers dict is bound to the caller's value in the resulting headers. -/
theorem C9_extra_headers_override (cfg : OrchestratorConfig) (tok : List Cred)
    (uri : String) (ex : PyDict) (k : String) (v : Option String) (hs : PyDict)
    (hnd : (ex.map Prod.fst).Nodup)
    (hk : dictGet ex k = some v)
    (hb : build_http_headers cfg tok uri (some ex) = .ok hs) :
    dictGet hs k = some v := by
  have hex : ex ≠ [] := by rintro rfl; simp [dictGet] at hk
  cases hauth : is_auth_token tok with
  | false =>
    simp [build_http_headers, hauth, hex] at hb
    rw [← hb]
    exact dictGet_dictUpdate_mem _ _ _ _ hnd hk
  | true =>
    cases hg : get_auth_token tok uri with
    | error e => simp [build_http_headers, hauth, hg, hex, Except.map] at hb
    | ok t =>
      simp [build_http_headers, hauth, hg, hex, Except.map] at hb
      rw [← hb]
      exact dictGet_dictUpdate_mem _ _ _ _ hnd hk

/-- Witness for C9: a caller-supplied `Authorization` header overrides the
computed one. -/
theorem C9_witness :
    dictGet [("Accept", some "application/json"),
             ("Authorization", some "Bearer caller")] "Authorization"
      = some (some "Bearer caller") :=
  C9_extra_headers_override cfgA [credTokA] "/a/resource"
    [("Authorization", some "Bearer caller")] "Authorization"
    (some "Bearer caller")
    [("Accept", some "application/json"),
     ("Authorization", some "Bearer caller")]
    (by decide) (by decide) (by decide)
